import Mathlib

/-!
Verification of the uvve Environment Registry & Lockfile Engine.

Shallow embedding of the repository's CLI command layer
(`src/uvve/commands/packages.py`, `src/uvve/commands/analytics.py`) and of
the core components it calls (`uvve.core.freeze`, `uvve.core.analytics`,
`uvve.core.manager`), which are not part of the given sources and are
therefore modelled from the specification where noted.

Conventions: timestamps are integers counting days; exit codes are natural
numbers (0 = success, 1 = the `typer.Exit(1)` abort used by every command);
the text of a lockfile is represented as its sequence of lines.
-/

namespace Uvve

/-- Error kinds of the engine, from §7 of the specification. -/
inductive UvveError where
  | NotFound
  | LockfileMissing
  | LockfileCorrupt
  | InstallerUnavailable
  | InstallFailed
  | NoActiveEnvironment
deriving DecidableEq

/-- Modelled from the spec: the `EnvironmentRecord` of §3 (fields not used
by any analytics computation — `python_version`, `tags`, `description`,
`package_count`, `tracked_packages` — are carried by other definitions
below and omitted here).  `last_used_at = none` means "never used". -/
structure EnvironmentRecord where
  name : String
  created_at : Int
  last_used_at : Option Int
  usage_count : Nat
  size_bytes : Nat
deriving DecidableEq

/-- Modelled from the spec: the unused/active classification of §4.3
(`uvve.core.analytics` is not under `src/`): a record is unused iff
`last_used_at` is absent or `now - last_used_at > thresholdDays`. -/
def isUnused (now thresholdDays : Int) (r : EnvironmentRecord) : Bool :=
  match r.last_used_at with
  | none => true
  | some t => decide (now - t > thresholdDays)

/-- The usage summary consumed by the `status` and `analytics` commands
(the keys `total_environments`, `active_environments`,
`unused_environments` of the dictionary built by
`AnalyticsManager.get_usage_summary`). -/
structure Summary where
  total_environments : Nat
  active_environments : Nat
  unused_environments : Nat
deriving DecidableEq

/-- Modelled from the spec: `summarize(records, now, unusedThresholdDays)`
of §4.3 (`uvve.core.analytics` is not under `src/`): counts records,
classifies each with `isUnused`, active = total - unused. -/
def summarize (records : List EnvironmentRecord) (now thresholdDays : Int) :
    Summary :=
  { total_environments := records.length
    unused_environments := (records.filter (isUnused now thresholdDays)).length
    active_environments :=
      records.length - (records.filter (isUnused now thresholdDays)).length }

/-- Python's `round(x, 1)` on an exact rational value: round half to even
at one decimal place. -/
def pyRound1 (q : ℚ) : ℚ :=
  let x := q * 10
  let f : Int := Rat.floor x
  let r := x - (f : ℚ)
  (if r < 1/2 then (f : ℚ)
   else if 1/2 < r then ((f + 1 : Int) : ℚ)
   else if f % 2 = 0 then (f : ℚ) else ((f + 1 : Int) : ℚ)) / 10

/-- The efficiency metric of the `status` command
(`src/uvve/commands/analytics.py`, lines 65-69): shown only when
`total > 0`, computed as `round(((total - unused) / total) * 100, 1)`. -/
def statusEfficiencyRow (total unused : Nat) : Option ℚ :=
  if 0 < total then
    some (pyRound1 ((((total : ℚ) - (unused : ℚ)) / (total : ℚ)) * 100))
  else none

/-- The Active Environments value displayed by the `status` command:
computed as `total - unused` (`src/uvve/commands/analytics.py`, line 60),
over Python integers, not read from a separate active count. -/
def statusActiveDisplayed (total unused : Int) : Int := total - unused

/-- The three count rows (Total, Active, Unused) displayed by the
`status` command for a given usage summary. -/
def statusRows (s : Summary) : Int × Int × Int :=
  ((s.total_environments : Int),
   statusActiveDisplayed (s.total_environments : Int) (s.unused_environments : Int),
   (s.unused_environments : Int))

/-- Modelled from the spec: the `tracked_packages` update of
`addPackages` in §4.5 (`uvve.core.freeze` is not under `src/`): append
any newly-seen specifiers, deduplicated, preserving first-seen order. -/
def addTracked (tracked specifiers : List String) : List String :=
  specifiers.foldl (fun acc s => if s ∈ acc then acc else acc ++ [s]) tracked

/-- Modelled from the spec: one entry of a `LockfileSnapshot` (§3): an
exact (package name, version) pair.  The spec's optional hash is not
exercised by any property and is omitted. -/
structure LockEntry where
  name : String
  version : String
deriving DecidableEq

/-- Well-formedness of a lock entry: nonempty name and version, and the
name free of the `=` character (as package names are), so that the
`name==version` line is unambiguous. -/
def LockEntry.wf (e : LockEntry) : Prop :=
  e.name ≠ "" ∧ e.version ≠ "" ∧ '=' ∉ e.name.data

instance (e : LockEntry) : Decidable e.wf := by
  unfold LockEntry.wf; infer_instance

/-- Name order on lock entries (case-sensitive, via the code-point order
on strings). -/
def entryLE (a b : LockEntry) : Prop := a.name ≤ b.name

instance : DecidableRel entryLE := fun a b =>
  inferInstanceAs (Decidable (a.name ≤ b.name))

instance : IsTotal LockEntry entryLE := ⟨fun a b => le_total a.name b.name⟩

instance : IsTrans LockEntry entryLE := ⟨fun _ _ _ h h' => le_trans h h'⟩

/-- Strict name order on lock entries. -/
def entryLT (a b : LockEntry) : Prop := a.name < b.name

instance : IsAntisymm LockEntry entryLT :=
  ⟨fun _ _ h h' => absurd (lt_trans h h') (lt_irrefl _)⟩

/-- Modelled from the spec: the stable sort of §4.4 — entries ordered by
package name, case-sensitive ascending. -/
def sortEntries (es : List LockEntry) : List LockEntry :=
  es.insertionSort entryLE

/-- Modelled from the spec: one lockfile line for one entry
(`name==version`, the exact-pin format of §4.5 step 3). -/
def encodeLine (e : LockEntry) : String :=
  e.name ++ "==" ++ e.version

/-- Modelled from the spec: `encode(snapshot) -> text` of §4.4
(`uvve.core.lock` is not under `src/`): one entry per line, entries
sorted by package name case-sensitive ascending.  Text is represented as
its sequence of lines. -/
def encode (es : List LockEntry) : List String :=
  (sortEntries es).map encodeLine

/-- Split a character sequence at the first occurrence of `==`. -/
def splitEq : List Char → Option (List Char × List Char)
  | [] => none
  | c :: rest =>
    if c = '=' ∧ rest.head? = some '=' then some ([], rest.tail)
    else (splitEq rest).map fun p => (c :: p.1, p.2)

/-- Modelled from the spec: parsing of one lockfile line — a malformed
line (no `==` separator, missing name or missing version) is rejected. -/
def parseLine (line : String) : Option LockEntry :=
  match splitEq line.data with
  | none => none
  | some (n, v) =>
    if n.isEmpty ∨ v.isEmpty then none else some ⟨⟨n⟩, ⟨v⟩⟩

/-- Parse every line of a lockfile, failing with `LockfileCorrupt` on the
first malformed line (§7: `LockfileCorrupt` covers malformed lockfiles). -/
def parseAll : List String → Except UvveError (List LockEntry)
  | [] => .ok []
  | l :: ls =>
    match parseLine l with
    | none => .error .LockfileCorrupt
    | some e => (parseAll ls).map (e :: ·)

/-- Modelled from the spec: `decode(text) -> snapshot | ParseError` of
§4.4 — parses every line and rejects duplicate package names with
`LockfileCorrupt` (a lockfile is a set by key, not a multiset). -/
def decode (lines : List String) : Except UvveError (List LockEntry) :=
  match parseAll lines with
  | .error e => .error e
  | .ok es =>
    if (es.map LockEntry.name).Nodup then .ok es else .error .LockfileCorrupt

/-- Modelled from the spec: `thaw(name)` of §4.5 (`uvve.core.freeze` is
not under `src/`): read and decode the lockfile, failing with
`LockfileMissing` when it does not exist and with the decoder's error
when corrupt, then instruct the installer to install exactly the locked
pairs.  The second component records every installer invocation made
(the argument list of each call), so that "no installer calls" is
observable. -/
def thaw (lockfiles : String → Option (List String))
    (install : List LockEntry → Except UvveError Unit)
    (name : String) : Except UvveError Unit × List (List LockEntry) :=
  match lockfiles name with
  | none => (.error .LockfileMissing, [])
  | some text =>
    match decode text with
    | .error e => (.error e, [])
    | .ok es =>
      match install es with
      | .ok _ => (.ok (), [es])
      | .error e => (.error e, [es])

/-- The per-environment registry state visible to the `add` command: the
installed closure and the tracked packages of each environment. -/
structure World where
  installed : String → List (String × String)
  tracked : String → List String

/-- Outcome of one `add` command invocation: the exit code, the error
kind (if any), the registry state afterwards, and every
`FreezeManager.add_packages` call made (environment name and specifier
list of each call). -/
structure AddResult where
  exitCode : Nat
  errorKind : Option UvveError
  world : World
  installCalls : List (String × List String)

/-- The `add` command (`src/uvve/commands/packages.py`, `add`): queries
the provisioner's current environment first; when none is selected it
prints an error and raises `typer.Exit(1)` before any `FreezeManager` is
constructed; otherwise it delegates to `add_packages` on the current
environment, exiting 0 on success and 1 when the operation raises. -/
def addCmd (current : Option String)
    (op : World → String → List String → Except UvveError World)
    (w : World) (packages : List String) : AddResult :=
  match current with
  | none => ⟨1, some .NoActiveEnvironment, w, []⟩
  | some env =>
    match op w env packages with
    | .ok w' => ⟨0, none, w', [(env, packages)]⟩
    | .error e => ⟨1, some e, w, [(env, packages)]⟩

/-- The `lock` command (`src/uvve/commands/packages.py`, `lock`): runs
`FreezeManager.lock` and exits 1 when it raises, 0 otherwise. -/
def lockCmd (lockOp : Except UvveError Unit) : Nat :=
  match lockOp with
  | .ok _ => 0
  | .error _ => 1

/-- The `freeze` command (`src/uvve/commands/packages.py`, `freeze`):
shows tracked or all installed packages and exits 1 when the underlying
operation raises, 0 otherwise (an empty tracked list is a success). -/
def freezeCmd (tracked_only : Bool)
    (showOp : Except UvveError (List String)) : Nat :=
  match showOp with
  | .ok _ => 0
  | .error _ => 1

/-- The `thaw` command (`src/uvve/commands/packages.py`, `thaw`): runs
`FreezeManager.thaw` and exits 1 when it raises, 0 otherwise. -/
def thawCmd (lockfiles : String → Option (List String))
    (install : List LockEntry → Except UvveError Unit)
    (name : String) : Nat :=
  match (thaw lockfiles install name).1 with
  | .ok _ => 0
  | .error _ => 1

/-- The `status` command (`src/uvve/commands/analytics.py`, `status`):
with `--current` it exits 1 when the current-environment query fails or
returns none; otherwise it renders the usage summary, exiting 1 when
`get_usage_summary` raises and 0 otherwise. -/
def statusCmd (currentFlag : Bool)
    (currentQ : Except UvveError (Option String))
    (summaryQ : Except UvveError Summary) : Nat :=
  if currentFlag then
    match currentQ with
    | .ok (some _) => 0
    | .ok none => 1
    | .error _ => 1
  else
    match summaryQ with
    | .ok _ => 0
    | .error _ => 1

/-- The `analytics` command (`src/uvve/commands/analytics.py`,
`analytics`): with a name it renders that environment's analytics,
exiting 1 when `get_environment_analytics` raises; without a name it
renders the usage summary, exiting 1 when `get_usage_summary` raises. -/
def analyticsCmd (name : Option String)
    (envQ : Except UvveError Unit)
    (summaryQ : Except UvveError Summary) : Nat :=
  match name with
  | some _ =>
    match envQ with
    | .ok _ => 0
    | .error _ => 1
  | none =>
    match summaryQ with
    | .ok _ => 0
    | .error _ => 1

/-! ### Helper lemmas -/

theorem mem_addTracked (s t : List String) (x : String) :
    x ∈ addTracked t s ↔ x ∈ t ∨ x ∈ s := by
  induction s generalizing t with
  | nil => simp [addTracked]
  | cons a s ih =>
    simp only [addTracked, List.foldl_cons] at ih ⊢
    rw [ih]
    by_cases h : a ∈ t <;> simp [h] <;> aesop

theorem nodup_addTracked (s t : List String) (ht : t.Nodup) :
    (addTracked t s).Nodup := by
  induction s generalizing t with
  | nil => exact ht
  | cons a s ih =>
    simp only [addTracked, List.foldl_cons] at ih ⊢
    apply ih
    by_cases h : a ∈ t
    · simpa [h]
    · simp [h, List.nodup_append, ht]

theorem addTracked_append (t s₁ s₂ : List String) :
    addTracked t (s₁ ++ s₂) = addTracked (addTracked t s₁) s₂ := by
  simp [addTracked, List.foldl_append]

theorem pairwise_and {α : Type} {R S : α → α → Prop} {l : List α}
    (h1 : l.Pairwise R) (h2 : l.Pairwise S) :
    l.Pairwise fun a b => R a b ∧ S a b := by
  induction l with
  | nil => exact .nil
  | cons a l ih =>
    cases h1 with
    | cons h1a h1l =>
      cases h2 with
      | cons h2a h2l =>
        exact .cons (fun b hb => ⟨h1a b hb, h2a b hb⟩) (ih h1l h2l)

theorem sorted_lt_of_sorted_le (l : List LockEntry)
    (hs : l.Sorted entryLE) (hn : (l.map LockEntry.name).Nodup) :
    l.Sorted entryLT := by
  have hne : l.Pairwise fun a b => a.name ≠ b.name := by
    rw [List.Nodup, List.pairwise_map] at hn
    exact hn
  exact (pairwise_and hs hne).imp fun h => lt_of_le_of_ne h.1 h.2

theorem perm_sortEntries (es : List LockEntry) : (sortEntries es).Perm es :=
  List.perm_insertionSort entryLE es

theorem sorted_sortEntries (es : List LockEntry) :
    (sortEntries es).Sorted entryLE :=
  List.sorted_insertionSort entryLE es

theorem nodup_names_sortEntries (es : List LockEntry)
    (hn : (es.map LockEntry.name).Nodup) :
    ((sortEntries es).map LockEntry.name).Nodup :=
  (((perm_sortEntries es).map LockEntry.name).nodup_iff).mpr hn

theorem sortEntries_eq_of_sorted (es : List LockEntry)
    (hs : es.Sorted entryLE) (hn : (es.map LockEntry.name).Nodup) :
    sortEntries es = es :=
  List.eq_of_perm_of_sorted (perm_sortEntries es)
    (sorted_lt_of_sorted_le _ (sorted_sortEntries es)
      (nodup_names_sortEntries es hn))
    (sorted_lt_of_sorted_le _ hs hn)

theorem data_append (a b : String) : (a ++ b).data = a.data ++ b.data := by
  cases a; cases b; rfl

theorem splitEq_sep (n v : List Char) (hn : '=' ∉ n) :
    splitEq (n ++ '=' :: '=' :: v) = some (n, v) := by
  induction n with
  | nil => simp [splitEq]
  | cons c n ih =>
    have hc : ¬ c = '=' := fun h => hn (h ▸ List.mem_cons_self c n)
    simp [splitEq, hc, ih fun h => hn (List.mem_cons_of_mem c h)]

theorem parseLine_encodeLine (e : LockEntry) (h : e.wf) :
    parseLine (encodeLine e) = some e := by
  obtain ⟨hname, hver, heq⟩ := h
  have hdata : (encodeLine e).data =
      e.name.data ++ '=' :: '=' :: e.version.data := by
    simp [encodeLine, data_append]
  have hnd : ¬ e.name.data = [] := by
    intro hcon
    exact hname (by cases hname' : e.name; simp_all)
  have hvd : ¬ e.version.data = [] := by
    intro hcon
    exact hver (by cases hver' : e.version; simp_all)
  simp [parseLine, hdata, splitEq_sep _ _ heq, hnd, hvd]

theorem parseAll_encode (es : List LockEntry) (h : ∀ e ∈ es, e.wf) :
    parseAll (es.map encodeLine) = .ok es := by
  induction es with
  | nil => rfl
  | cons e es ih =>
    simp only [List.map_cons, parseAll,
      parseLine_encodeLine e (h e (List.mem_cons_self e es))]
    rw [ih fun e' he' => h e' (List.mem_cons_of_mem e he')]
    rfl

theorem decode_encode (es : List LockEntry) (hwf : ∀ e ∈ es, e.wf)
    (hn : (es.map LockEntry.name).Nodup) :
    decode (encode es) = .ok (sortEntries es) := by
  have hwf' : ∀ e ∈ sortEntries es, e.wf := fun e he =>
    hwf e ((perm_sortEntries es).mem_iff.mp he)
  rw [encode, decode, parseAll_encode _ hwf']
  simp [nodup_names_sortEntries es hn]

/-! ### Claim theorems -/

/-- Claim C1: every invocation of the `add` command when the
provisioner's current-environment query returns none fails with the
no-active-environment error and exits with a non-zero outcome, whatever
the registry state, the requested packages and the installer behavior. -/
theorem add_no_active_env (op : World → String → List String → Except UvveError World)
    (w : World) (packages : List String) :
    (addCmd none op w packages).errorKind = some .NoActiveEnvironment ∧
    (addCmd none op w packages).exitCode ≠ 0 := by
  exact ⟨rfl, by simp [addCmd]⟩

/-- Claim C9: the `add` command with no currently active environment
exits before any installation is attempted: no `add_packages` call is
made and the registry state — in particular every environment's installed
set and tracked packages — is returned unchanged. -/
theorem add_no_active_env_atomic
    (op : World → String → List String → Except UvveError World)
    (w : World) (packages : List String) :
    (addCmd none op w packages).installCalls = [] ∧
    (addCmd none op w packages).world = w ∧
    (addCmd none op w packages).world.installed = w.installed ∧
    (addCmd none op w packages).world.tracked = w.tracked :=
  ⟨rfl, rfl, rfl, rfl⟩

/-- Claim C10: the Active Environments value displayed by `status` is
computed as total minus unused over Python integers, so the displayed
active and unused counts always sum to the displayed total; moreover the
summaries produced by `summarize` satisfy active + unused = total. -/
theorem status_counts_sum (s : Summary) :
    ((statusRows s).2.1 + (statusRows s).2.2 = (statusRows s).1 ∧
      (statusRows s).2.1 =
        statusActiveDisplayed (s.total_environments : Int) (s.unused_environments : Int)) ∧
    ∀ (records : List EnvironmentRecord) (now thresholdDays : Int),
      (summarize records now thresholdDays).active_environments +
        (summarize records now thresholdDays).unused_environments =
        (summarize records now thresholdDays).total_environments := by
  refine ⟨⟨?_, rfl⟩, ?_⟩
  · simp [statusRows, statusActiveDisplayed]
  · intro records now thresholdDays
    simp only [summarize]
    exact Nat.sub_add_cancel (List.length_filter_le _ _)

/-- Claim C6: a record is classified unused iff `last_used_at` is absent
or `now - last_used_at` strictly exceeds the threshold; a record last
used exactly `thresholdDays` ago is active, and one a day older is
unused (exclusive boundary on the active side). -/
theorem unused_classification (r : EnvironmentRecord) (now thresholdDays : Int) :
    (isUnused now thresholdDays r = true ↔
      r.last_used_at = none ∨
        ∃ t, r.last_used_at = some t ∧ now - t > thresholdDays) ∧
    (∀ name c u s,
      isUnused now thresholdDays ⟨name, c, some (now - thresholdDays), u, s⟩ = false) ∧
    (∀ name c u s,
      isUnused now thresholdDays
        ⟨name, c, some (now - thresholdDays - 1), u, s⟩ = true) := by
  refine ⟨?_, ?_, ?_⟩
  · cases h : r.last_used_at <;> simp [isUnused, h]
  · intro name c u s
    simp [isUnused]
  · intro name c u s
    simp [isUnused]
    omega

/-- Claim C7: `addPackages` tracked-package bookkeeping composes over
successive calls, keeps the list duplicate-free, contains exactly the
specifiers ever passed (first-seen order preserved, the prior list kept
as-is in front); in particular adding a, b then b, c yields a, b, c. -/
theorem tracked_dedup_first_seen :
    (∀ t s₁ s₂ : List String,
      addTracked (addTracked t s₁) s₂ = addTracked t (s₁ ++ s₂)) ∧
    (∀ t s : List String, t.Nodup → (addTracked t s).Nodup) ∧
    (∀ (t s : List String) (x : String), x ∈ addTracked t s ↔ x ∈ t ∨ x ∈ s) ∧
    addTracked (addTracked [] ["a", "b"]) ["b", "c"] = ["a", "b", "c"] := by
  refine ⟨?_, ?_, ?_, ?_⟩
  · intro t s₁ s₂
    exact (addTracked_append t s₁ s₂).symm
  · intro t s ht
    exact nodup_addTracked s t ht
  · intro t s x
    exact mem_addTracked s t x
  · decide

/-- Witness for C7 at a concrete input. -/
theorem tracked_dedup_first_seen_witness :
    (["a", "b"] : List String).Nodup ∧
    (addTracked ["a", "b"] ["b", "c"]).Nodup :=
  ⟨by decide, tracked_dedup_first_seen.2.1 ["a", "b"] ["b", "c"] (by decide)⟩

/-- Claim C5: `thaw` on an environment whose lockfile does not exist
fails with `LockfileMissing`, performs no installer calls, and the thaw
command exits with a non-zero outcome. -/
theorem thaw_missing_lockfile (lockfiles : String → Option (List String))
    (install : List LockEntry → Except UvveError Unit) (name : String)
    (h : lockfiles name = none) :
    thaw lockfiles install name = (.error .LockfileMissing, []) ∧
    thawCmd lockfiles install name ≠ 0 := by
  constructor
  · simp [thaw, h]
  · simp [thawCmd, thaw, h]

/-- Witness for C5 at a concrete input. -/
theorem thaw_missing_lockfile_witness :
    thaw (fun _ => none) (fun _ => .ok ()) "demo" = (.error .LockfileMissing, []) ∧
    thawCmd (fun _ => none) (fun _ => .ok ()) "demo" ≠ 0 :=
  thaw_missing_lockfile (fun _ => none) (fun _ => .ok ()) "demo" rfl

/-- Claim C8: every CLI command (add, lock, freeze, thaw, status,
analytics) exits with a non-zero outcome on every input on which its
underlying operation fails; none reports success while the operation
failed. -/
theorem cli_failure_nonzero :
    (∀ (op : World → String → List String → Except UvveError World) w packages,
      (addCmd none op w packages).exitCode ≠ 0) ∧
    (∀ (op : World → String → List String → Except UvveError World) w packages env e,
      op w env packages = .error e → (addCmd (some env) op w packages).exitCode ≠ 0) ∧
    (∀ e : UvveError, lockCmd (.error e) ≠ 0) ∧
    (∀ (b : Bool) (e : UvveError), freezeCmd b (.error e) ≠ 0) ∧
    (∀ (lockfiles : String → Option (List String))
       (install : List LockEntry → Except UvveError Unit) name e,
      (thaw lockfiles install name).1 = .error e →
        thawCmd lockfiles install name ≠ 0) ∧
    (∀ (e : UvveError) summaryQ, statusCmd true (.error e) summaryQ ≠ 0) ∧
    (∀ currentQ (e : UvveError), statusCmd false currentQ (.error e) ≠ 0) ∧
    (∀ (n : String) (e : UvveError) summaryQ,
      analyticsCmd (some n) (.error e) summaryQ ≠ 0) ∧
    (∀ envQ (e : UvveError), analyticsCmd none envQ (.error e) ≠ 0) := by
  refine ⟨?_, ?_, ?_, ?_, ?_, ?_, ?_, ?_, ?_⟩
  · intro op w packages
    simp [addCmd]
  · intro op w packages env e h
    simp [addCmd, h]
  · intro e
    simp [lockCmd]
  · intro b e
    simp [freezeCmd]
  · intro lockfiles install name e h
    simp [thawCmd, h]
  · intro e summaryQ
    simp [statusCmd]
  · intro currentQ e
    simp [statusCmd]
  · intro n e summaryQ
    simp [analyticsCmd]
  · intro envQ e
    simp [analyticsCmd]

/-- Witness for C8, discharging its two conditional parts at concrete
inputs (a failing installer call, and a thaw whose lockfile is absent). -/
theorem cli_failure_nonzero_witness :
    (addCmd (some "demo") (fun _ _ _ => .error .InstallFailed)
      ⟨fun _ => [], fun _ => []⟩ ["requests"]).exitCode ≠ 0 ∧
    thawCmd (fun _ => none) (fun _ => .ok ()) "demo" ≠ 0 :=
  ⟨cli_failure_nonzero.2.1 _ _ _ "demo" .InstallFailed rfl,
   cli_failure_nonzero.2.2.2.2.1 (fun _ => none) (fun _ => .ok ()) "demo"
     .LockfileMissing rfl⟩

/-- Claim C2: a registry with exactly one record created at time 0 and
never activated, summarized 31 days later with the 30-day threshold,
reports total = 1, unused = 1 (hence active = 0); the status command
then shows efficiency 0% (round(((1-1)/1)*100, 1) = 0.0), and the
efficiency row is emitted only when the total is positive. -/
theorem summarize_unused_demo :
    summarize [⟨"demo", 0, none, 0, 0⟩] 31 30 =
      { total_environments := 1, active_environments := 0,
        unused_environments := 1 } ∧
    statusEfficiencyRow 1 1 = some 0 ∧
    ∀ unused, statusEfficiencyRow 0 unused = none := by
  refine ⟨rfl, ?_, ?_⟩
  · simp only [statusEfficiencyRow, pyRound1, if_pos Nat.one_pos]
    norm_num [Rat.floor]
  · intro unused
    simp [statusEfficiencyRow]

/-- Claim C3: for every well-formed snapshot with duplicate-free package
names, encoding then decoding succeeds and returns the same entry set
(the name-sorted permutation of the input, and the input itself whenever
it is already name-sorted); and encoding is deterministic: two snapshots
holding the same entries in any order encode to identical text. -/
theorem lockfile_roundtrip_deterministic :
    (∀ es : List LockEntry, (∀ e ∈ es, e.wf) → (es.map LockEntry.name).Nodup →
      decode (encode es) = .ok (sortEntries es) ∧
      (sortEntries es).Perm es ∧
      (es.Sorted entryLE → decode (encode es) = .ok es)) ∧
    (∀ es₁ es₂ : List LockEntry, es₁.Perm es₂ →
      (es₁.map LockEntry.name).Nodup → encode es₁ = encode es₂) := by
  constructor
  · intro es hwf hn
    refine ⟨decode_encode es hwf hn, perm_sortEntries es, fun hs => ?_⟩
    rw [decode_encode es hwf hn, sortEntries_eq_of_sorted es hs hn]
  · intro es₁ es₂ hperm hn₁
    have hn₂ : (es₂.map LockEntry.name).Nodup :=
      ((hperm.map LockEntry.name).nodup_iff).mp hn₁
    have hsort : sortEntries es₁ = sortEntries es₂ :=
      List.eq_of_perm_of_sorted
        (((perm_sortEntries es₁).trans hperm).trans (perm_sortEntries es₂).symm)
        (sorted_lt_of_sorted_le _ (sorted_sortEntries es₁)
          (nodup_names_sortEntries es₁ hn₁))
        (sorted_lt_of_sorted_le _ (sorted_sortEntries es₂)
          (nodup_names_sortEntries es₂ hn₂))
    rw [encode, encode, hsort]

theorem sorted_demo_entries :
    List.Sorted entryLE [⟨"a", "1.0"⟩, ⟨"b", "2.0"⟩] := by
  simp [List.sorted_cons, entryLE]
  decide

/-- Witness for C3 at concrete inputs: an unsorted two-entry snapshot, a
sorted one, and the two as permutations of each other. -/
theorem lockfile_roundtrip_deterministic_witness :
    decode (encode [⟨"b", "2.0"⟩, ⟨"a", "1.0"⟩]) =
      .ok (sortEntries [⟨"b", "2.0"⟩, ⟨"a", "1.0"⟩]) ∧
    decode (encode [⟨"a", "1.0"⟩, ⟨"b", "2.0"⟩]) =
      .ok [⟨"a", "1.0"⟩, ⟨"b", "2.0"⟩] ∧
    encode [⟨"b", "2.0"⟩, ⟨"a", "1.0"⟩] = encode [⟨"a", "1.0"⟩, ⟨"b", "2.0"⟩] :=
  ⟨(lockfile_roundtrip_deterministic.1 [⟨"b", "2.0"⟩, ⟨"a", "1.0"⟩]
      (by decide) (by decide)).1,
   (lockfile_roundtrip_deterministic.1 [⟨"a", "1.0"⟩, ⟨"b", "2.0"⟩]
      (by decide) (by decide)).2.2 sorted_demo_entries,
   lockfile_roundtrip_deterministic.2 [⟨"b", "2.0"⟩, ⟨"a", "1.0"⟩]
     [⟨"a", "1.0"⟩, ⟨"b", "2.0"⟩] (by decide) (by decide)⟩

/-- Claim C4: every lockfile text whose lines parse to two entries
sharing a package name is rejected by decode with `LockfileCorrupt`. -/
theorem decode_rejects_duplicate_names (lines : List String)
    (es : List LockEntry) (hp : parseAll lines = .ok es)
    (hd : ¬ (es.map LockEntry.name).Nodup) :
    decode lines = .error .LockfileCorrupt := by
  simp [decode, hp, hd]

/-- Witness for C4 at a concrete two-line lockfile with a duplicated
package name. -/
theorem decode_rejects_duplicate_names_witness :
    decode ["a==1", "a==2"] = .error .LockfileCorrupt :=
  decode_rejects_duplicate_names ["a==1", "a==2"]
    [⟨"a", "1"⟩, ⟨"a", "2"⟩] rfl (by decide)

end Uvve
